import Mathlib

/-!
Verification of the `ecur-logging` structured logging / alert dispatch path

A shallow embedding of `custom_logger/structured_log.py` (class `StructLogs`)
and of `CustomLogger._set_level` from `custom_logger/logger.py`, together with
theorems settling the specification claims about them.

Modelling conventions:
* Python optional strings (`os.getenv(..., None)`) are `Option String`;
  Python truthiness of such a value (`if self._failure_topic:`) is `pyTruthy`.
* Side effects of a call (writes to the log sink, boto3 client construction,
  `sns.publish` invocations, `print`s) are recorded in order in a `List Effect`.
* An uncaught Python exception raised inside a call is the `raised` flag of
  `RunResult`; effects performed before the raise are kept.
* The ambient world is passed explicitly: the host platform string
  (`platform.system()`), the current call stack as the list of
  already-formatted frame lines in `traceback.extract_stack()` order
  (outermost first, innermost last), the UTC timestamp string, whether the
  boto3 client construction and the publish call succeed, and the transport
  response that would be printed.
* Python dict literals with fixed string keys are association lists in the
  source's key order, so that "same keys, parallel values" claims are real
  statements about the embedded data.
-/

namespace EcurLogging

/-- Python truthiness of an optional string: `None` and `""` are falsy,
every non-empty string is truthy. -/
def pyTruthy : Option String → Bool
  | none => false
  | some s => !s.isEmpty

/-- Python `str.lower` (the repository only ever lowercases ASCII names);
written over the character list so it evaluates by kernel reduction. -/
def pyLower (s : String) : String := ⟨s.data.map Char.toLower⟩

/-- Python `str.upper` (the repository only ever uppercases ASCII names);
written over the character list so it evaluates by kernel reduction. -/
def pyUpper (s : String) : String := ⟨s.data.map Char.toUpper⟩

/-- Numeric value of logging.DEBUG. -/
def loggingDEBUG : Nat := 10

/-- Numeric value of logging.ERROR. -/
def loggingERROR : Nat := 40

/-- The boto3 SNS client handle; `verify` is the TLS certificate verification
setting it was constructed with (`boto3.client('sns', verify=False)` on
Windows, default verified otherwise). -/
structure SnsClient where
  verify : Bool
deriving DecidableEq, Repr

/-- One SNS message-attribute value: `{"DataType": ..., "StringValue": ...}`. -/
structure AttrVal where
  dataType : String
  stringValue : String
deriving DecidableEq, Repr

/-- The `StructLogs` facade state after `__init__`:
`_team`/`_module` (lowercased), the `logging.getLogger` name
(`f"{team}.{module}"`), `_level` (the result of `logging.getLevelName`),
`_failure_topic` (`os.getenv("SNS_FAILURE", None)`), and the lazily created
`_sns_client`. -/
structure StructLogs where
  team : String
  module : String
  logger_name : String
  level : String
  failure_topic : Option String
  sns_client : Option SnsClient
deriving DecidableEq, Repr

/-- An observable side effect of a facade call, in program order. -/
inductive Effect where
  /-- Embeds self._logger.log(level, msg, ...) — a write to the registered sink. -/
  | sinkWrite : Nat → String → Effect
  /-- Records that boto3.client(...) succeeded; the flag is the verification setting. -/
  | createClient : Bool → Effect
  /-- Records that self._sns_client.publish(TopicArn=topic, Message=body, MessageAttributes=attr)
  was invoked (the attempt is recorded even when the call raises). -/
  | publish : String → List (String × String) → List (String × AttrVal) → Effect
  /-- Records a print(...) to stdout. -/
  | printed : String → Effect
deriving DecidableEq, Repr

/-- The outcome of one facade call: the facade state afterwards, the effects
performed (in order), and whether an uncaught Python exception propagated to
the caller. -/
structure RunResult where
  state : StructLogs
  effects : List Effect
  raised : Bool
deriving DecidableEq, Repr

/-- One `exception(...)` call together with the ambient outcomes of its
dispatch steps: the message, the optional `destination=` keyword, whether
`boto3.client` would succeed, whether `publish` would succeed, and the
transport response that a successful publish returns. -/
structure CallSpec where
  msg : String
  destination : Option String
  createOk : Bool
  publishOk : Bool
  response : String
deriving DecidableEq, Repr

/-- The process-wide `logging` registry, abstracted to the number of handlers
attached to each named logger (`logging.getLogger(name).handlers`). -/
abbrev Registry := String → Nat

/-- Embeds StructLogs._add_stream_handler: unconditionally attaches one more
`StreamHandler` to the named logger (`self._logger.addHandler(ch)`). -/
def add_stream_handler (reg : Registry) (logger_name : String) : Registry :=
  fun n => if n = logger_name then reg n + 1 else reg n

/-- Embeds logging.getLevelName on an integer level: the name for registered
levels, `"Level {n}"` otherwise. -/
def getLevelName (level : Nat) : String :=
  if level = 50 then "CRITICAL"
  else if level = 40 then "ERROR"
  else if level = 30 then "WARNING"
  else if level = 20 then "INFO"
  else if level = 10 then "DEBUG"
  else if level = 0 then "NOTSET"
  else "Level " ++ toString level

/-- Embeds StructLogs.__init__(module, team="ecur", level=10): lowercases team and
module, reads `SNS_FAILURE` from the environment, binds the named logger
`f"{team}.{module}"`, and attaches a console sink via
`_add_stream_handler` (no idempotency guard). -/
def structLogsInit (env_SNS_FAILURE : Option String) (reg : Registry)
    (module : String) (team : String) (level : Nat) : StructLogs × Registry :=
  let team_l := pyLower team
  let module_l := pyLower module
  let filename := team_l ++ "." ++ module_l
  (⟨team_l, module_l, filename, getLevelName level, env_SNS_FAILURE, none⟩,
   add_stream_handler reg filename)

/-- Embeds StructLogs._format_sns_message(level, message, snow_team):
`trace = "".join(traceback.format_list(traceback.extract_stack()[:-2]))`
(the call stack minus its two innermost frames, which at the capture point
are `_format_sns_message` itself and `exception`), the UTC timestamp, then
the attribute dict and body dict in source key order. Returns
`(message_attributes, message_body)`. -/
def format_sns_message (st : StructLogs) (level message snow_team : String)
    (stack : List String) (timeStamp : String) :
    List (String × AttrVal) × List (String × String) :=
  let trace := String.join (stack.dropLast.dropLast)
  let attr : List (String × AttrVal) :=
    [("team", ⟨"string", st.team⟩),
     ("module", ⟨"string", st.module⟩),
     ("traceback", ⟨"string", trace⟩),
     ("utc_time_stamp", ⟨"string", timeStamp⟩),
     ("message_type", ⟨"string", level⟩),
     ("message", ⟨"string", message⟩),
     ("snow_team", ⟨"string", snow_team⟩)]
  let body : List (String × String) :=
    [("team", st.team),
     ("module", st.module),
     ("traceback", trace),
     ("utc_time_stamp", timeStamp),
     ("message_type", level),
     ("message", message),
     ("snow_team", snow_team)]
  (attr, body)

/-- Embeds StructLogs._set_sns_client: on Windows prints `"Windows"` and builds
the client with `verify=False`; otherwise builds it with default (verified)
settings. `createOk = false` models `boto3.client` raising: the print (if
any) has already happened, no client is cached, and the third component
records that the call raised. -/
def set_sns_client (st : StructLogs) (platformSystem : String) (createOk : Bool) :
    StructLogs × List Effect × Bool :=
  if pyLower platformSystem = "windows" then
    if createOk then
      ({ st with sns_client := some ⟨false⟩ },
       [Effect.printed "Windows", Effect.createClient false], false)
    else
      (st, [Effect.printed "Windows"], true)
  else
    if createOk then
      ({ st with sns_client := some ⟨true⟩ }, [Effect.createClient true], false)
    else
      (st, [], true)

/-- Embeds StructLogs._send_message_to_sns(body, attr, topic): lazily creates the
client if none is cached, publishes, prints the response. A raise during
client construction or publish propagates (`raised = true`); effects before
the raise are kept, and a client cached before a failed publish stays
cached. -/
def send_message_to_sns (st : StructLogs) (body : List (String × String))
    (attr : List (String × AttrVal)) (topic : String) (platformSystem : String)
    (createOk publishOk : Bool) (response : String) : RunResult :=
  let step :=
    if st.sns_client.isNone then set_sns_client st platformSystem createOk
    else (st, [], false)
  if step.2.2 then
    ⟨step.1, step.2.1, true⟩
  else if publishOk then
    ⟨step.1, step.2.1 ++ [Effect.publish topic body attr, Effect.printed response], false⟩
  else
    ⟨step.1, step.2.1 ++ [Effect.publish topic body attr], true⟩

/-- Embeds StructLogs.error(msg, ...): delegates to
`self._logger.log(logging.ERROR, msg, ...)` — sink write only, no dispatch. -/
def errorCall (st : StructLogs) (msg : String) : StructLogs × List Effect :=
  (st, [Effect.sinkWrite loggingERROR msg])

/-- Embeds StructLogs.exception(msg, *args, exc_info=True, **kwargs):
pops `destination` (default `"developer"`); if `self._failure_topic` is
truthy, formats the SNS payload and dispatches it (uncaught dispatch
failures propagate before the sink write is reached); finally logs at
`logging.ERROR` to the sink. -/
def exceptionCall (st : StructLogs) (c : CallSpec) (platformSystem : String)
    (stack : List String) (timeStamp : String) : RunResult :=
  let snow_team := c.destination.getD "developer"
  if pyTruthy st.failure_topic then
    let formatted := format_sns_message st "exception" c.msg snow_team stack timeStamp
    let r := send_message_to_sns st formatted.2 formatted.1
      (st.failure_topic.getD "") platformSystem c.createOk c.publishOk c.response
    if r.raised then r
    else ⟨r.state, r.effects ++ [Effect.sinkWrite loggingERROR c.msg], false⟩
  else
    ⟨st, [Effect.sinkWrite loggingERROR c.msg], false⟩

/-- The default level table of `CustomLogger._set_level`
(`_d_levels` in the source). -/
def d_levels : List (String × Nat) :=
  [("DEBUG", 10), ("INFO", 20), ("WARNING", 30), ("ERROR", 40), ("CRITICAL", 50)]

/-- Embeds CustomLogger._set_level(name="DEBUG"): starts from `_level = 10`,
uppercases a truthy name and looks it up in the level table, returning 10
when the name is falsy or unknown. The custom-levels dict is always empty
(`_initialize_custom_levels` creates `dict()` and nothing ever fills it), so
its `update` is a no-op and is omitted. -/
def set_level (name : Option String) : Nat :=
  let lvl := 10
  if pyTruthy name then
    match d_levels.lookup (pyUpper (name.getD "")) with
    | some v => v
    | none => lvl
  else lvl

/-- The publish attempts in an effect list, as `(topic, body, attributes)`
triples in order. -/
def publishesOf (effs : List Effect) :
    List (String × List (String × String) × List (String × AttrVal)) :=
  effs.filterMap (fun e =>
    match e with
    | Effect.publish t b a => some (t, b, a)
    | _ => none)

/-- Number of publish attempts in an effect list. -/
def publishCount (effs : List Effect) : Nat := (publishesOf effs).length

/-- Whether an effect is a successful client construction. -/
def isCreate : Effect → Bool
  | Effect.createClient _ => true
  | _ => false

/-- Number of client constructions in an effect list. -/
def createCount (effs : List Effect) : Nat := (effs.filter isCreate).length

/-- One when the facade has no cached client yet, 0 once one is cached. -/
def clientBit (st : StructLogs) : Nat := if st.sns_client.isNone then 1 else 0

/-- A sequence of `exception` calls on one facade instance (the caller
handling any propagated dispatch failures between calls), with the
accumulated effect trace. -/
def runCalls (st : StructLogs) (calls : List CallSpec) (platformSystem : String)
    (stack : List String) (timeStamp : String) : StructLogs × List Effect :=
  match calls with
  | [] => (st, [])
  | c :: rest =>
    let r := exceptionCall st c platformSystem stack timeStamp
    let tail := runCalls r.state rest platformSystem stack timeStamp
    (tail.1, r.effects ++ tail.2)

/-- C2: registration is not idempotent in the code. Constructing the facade
twice with the identical identity (team = "test", module = "subscribe.log")
attaches a second console sink to the same named logger
"test.subscribe.log": the handler count is 2, not at most 1, so one log call
is emitted once per handler, producing duplicate output lines. -/
theorem C2_duplicate_sink_on_reconstruction :
    (structLogsInit none
        (structLogsInit none (fun _ => 0) "subscribe.log" "test" 10).2
        "subscribe.log" "test" 10).2 "test.subscribe.log" = 2 := by
  rfl

/-- C3: if the SNS_FAILURE environment variable is unset at facade
construction (`os.getenv` returns `None`), an `exception(msg)` call performs
no transport-client construction and no publish attempt, never raises, and
writes exactly one ERROR-severity line to the sink. -/
theorem C3_no_dispatch_without_config (reg : Registry) (module team : String)
    (lvl : Nat) (c : CallSpec) (platformSystem : String) (stack : List String)
    (ts : String) :
    exceptionCall ((structLogsInit none reg module team lvl).1) c
        platformSystem stack ts =
      ⟨(structLogsInit none reg module team lvl).1,
       [Effect.sinkWrite loggingERROR c.msg], false⟩ := by
  rfl

/-- C10: if SNS_FAILURE is set but equal to the empty string at facade
construction, `exception(msg)` behaves exactly as if the variable were
absent: the truthiness test on the topic treats `""` as unconfigured, so no
payload is built and no publish is attempted, while the ERROR-severity sink
write still occurs and nothing raises. -/
theorem C10_empty_topic_treated_as_unconfigured (reg : Registry)
    (module team : String) (lvl : Nat) (c : CallSpec) (platformSystem : String)
    (stack : List String) (ts : String) :
    exceptionCall ((structLogsInit (some "") reg module team lvl).1) c
        platformSystem stack ts =
      ⟨(structLogsInit (some "") reg module team lvl).1,
       [Effect.sinkWrite loggingERROR c.msg], false⟩ ∧
    (exceptionCall ((structLogsInit (some "") reg module team lvl).1) c
        platformSystem stack ts).effects =
      (exceptionCall ((structLogsInit none reg module team lvl).1) c
        platformSystem stack ts).effects ∧
    (exceptionCall ((structLogsInit (some "") reg module team lvl).1) c
        platformSystem stack ts).raised =
      (exceptionCall ((structLogsInit none reg module team lvl).1) c
        platformSystem stack ts).raised := by
  exact ⟨rfl, rfl, rfl⟩

/-- C7: the facade constructor lowercases both team and module and forms the
logger key as "{team}.{module}"; in particular team = "TEST",
module = "Subscribe.LOG" yields the key "test.subscribe.log". -/
theorem C7_case_normalization :
    (∀ (env : Option String) (reg : Registry) (module team : String) (lvl : Nat),
        ((structLogsInit env reg module team lvl).1).team = pyLower team ∧
        ((structLogsInit env reg module team lvl).1).module = pyLower module ∧
        ((structLogsInit env reg module team lvl).1).logger_name =
          pyLower team ++ "." ++ pyLower module) ∧
    ((structLogsInit none (fun _ => 0) "Subscribe.LOG" "TEST" 10).1).logger_name =
      "test.subscribe.log" := by
  refine ⟨fun env reg module team lvl => ⟨rfl, rfl, rfl⟩, ?_⟩
  decide

/-- C5: a severity-level name whose uppercasing is not among the known
level names resolves to 10 — the lowest value in the level table, the one
bound to "DEBUG" — instead of raising. -/
theorem C5_unknown_level_fallback (name : String)
    (h : pyUpper name ∉ ["DEBUG", "INFO", "WARNING", "ERROR", "CRITICAL"]) :
    set_level (some name) = 10 ∧ ("DEBUG", 10) ∈ d_levels ∧
      ∀ p ∈ d_levels, 10 ≤ p.2 := by
  refine ⟨?_, by decide, by decide⟩
  simp only [List.mem_cons, List.not_mem_nil, or_false, not_or] at h
  obtain ⟨h1, h2, h3, h4, h5⟩ := h
  have e1 : (pyUpper name == "DEBUG") = false := beq_eq_false_iff_ne.mpr h1
  have e2 : (pyUpper name == "INFO") = false := beq_eq_false_iff_ne.mpr h2
  have e3 : (pyUpper name == "WARNING") = false := beq_eq_false_iff_ne.mpr h3
  have e4 : (pyUpper name == "ERROR") = false := beq_eq_false_iff_ne.mpr h4
  have e5 : (pyUpper name == "CRITICAL") = false := beq_eq_false_iff_ne.mpr h5
  cases hp : pyTruthy (some name) with
  | false => simp [set_level, hp]
  | true =>
    simp [set_level, hp, d_levels, List.lookup, e1, e2, e3, e4, e5]

/-- C5 witness: the unknown level name "TRACE" resolves to 10. -/
theorem C5_unknown_level_fallback_witness :
    set_level (some "TRACE") = 10 ∧ ("DEBUG", 10) ∈ d_levels ∧
      ∀ p ∈ d_levels, 10 ≤ p.2 :=
  C5_unknown_level_fallback "TRACE" (by decide)

/-- Helper: the dispatcher never writes to the log sink — its effects are
only prints, client constructions and publish attempts. -/
theorem send_no_sinkWrite (st : StructLogs) (body : List (String × String))
    (attr : List (String × AttrVal)) (topic platformSystem : String)
    (createOk publishOk : Bool) (response : String) (lvl : Nat) (m : String) :
    Effect.sinkWrite lvl m ∉
      (send_message_to_sns st body attr topic platformSystem createOk publishOk
        response).effects := by
  rcases hc : st.sns_client with _ | cl <;>
    by_cases hw : pyLower platformSystem = "windows" <;>
      cases createOk <;> cases publishOk <;>
        simp [send_message_to_sns, set_sns_client, hc, hw]

/-- Helper: the dispatcher raises only when client construction or the
publish call failed. -/
theorem send_raised_cause (st : StructLogs) (body : List (String × String))
    (attr : List (String × AttrVal)) (topic platformSystem : String)
    (createOk publishOk : Bool) (response : String)
    (h : (send_message_to_sns st body attr topic platformSystem createOk publishOk
        response).raised = true) :
    createOk = false ∨ publishOk = false := by
  rcases hc : st.sns_client with _ | cl <;>
    by_cases hw : pyLower platformSystem = "windows" <;>
      cases hco : createOk <;> cases hpo : publishOk <;>
        simp_all [send_message_to_sns, set_sns_client, hc, hw]

/-- C1 counterexample: a concrete run in which the topic is configured and
the publish call fails. The dispatch failure propagates (`raised = true`)
and the ERROR sink write does not occur, contradicting the claim that a
dispatch failure cannot prevent the sink write. -/
theorem C1_counterexample :
    (exceptionCall
        (structLogsInit (some "arn:sns:failure") (fun _ => 0) "subscribe.log"
          "test" 10).1
        ⟨"boom", none, true, false, ""⟩ "Linux" ["f1", "f2", "f3", "f4"]
        "2021-04-21 00:00:00").raised = true ∧
    Effect.sinkWrite loggingERROR "boom" ∉
      (exceptionCall
        (structLogsInit (some "arn:sns:failure") (fun _ => 0) "subscribe.log"
          "test" 10).1
        ⟨"boom", none, true, false, ""⟩ "Linux" ["f1", "f2", "f3", "f4"]
        "2021-04-21 00:00:00").effects := by
  decide

/-- C1 (amended): the ERROR sink write occurs whenever the call does not
raise, and `exception` raises only due to dispatch failure (topic configured
and client construction or publish failed) — never due to the sink write;
but since dispatch precedes the sink write and its failure is not caught, a
dispatch failure does prevent the sink write. -/
theorem C1_sink_write_vs_dispatch_failure (st : StructLogs) (c : CallSpec)
    (platformSystem : String) (stack : List String) (ts : String) :
    ((exceptionCall st c platformSystem stack ts).raised = false →
       Effect.sinkWrite loggingERROR c.msg ∈
         (exceptionCall st c platformSystem stack ts).effects) ∧
    ((exceptionCall st c platformSystem stack ts).raised = true →
       pyTruthy st.failure_topic = true ∧
       (c.createOk = false ∨ c.publishOk = false) ∧
       Effect.sinkWrite loggingERROR c.msg ∉
         (exceptionCall st c platformSystem stack ts).effects) := by
  cases hT : pyTruthy st.failure_topic with
  | false =>
    constructor
    · intro _
      simp [exceptionCall, hT]
    · intro hr
      simp [exceptionCall, hT] at hr
  | true =>
    cases hr : (send_message_to_sns st
        (format_sns_message st "exception" c.msg (c.destination.getD "developer")
          stack ts).2
        (format_sns_message st "exception" c.msg (c.destination.getD "developer")
          stack ts).1
        (st.failure_topic.getD "") platformSystem c.createOk c.publishOk
        c.response).raised with
    | false =>
      constructor
      · intro _
        simp [exceptionCall, hT, hr]
      · intro habs
        simp [exceptionCall, hT, hr] at habs
    | true =>
      constructor
      · intro habs
        simp [exceptionCall, hT, hr] at habs
      · intro _
        refine ⟨rfl, send_raised_cause _ _ _ _ _ _ _ _ hr, ?_⟩
        simpa [exceptionCall, hT, hr] using
          send_no_sinkWrite st
            (format_sns_message st "exception" c.msg (c.destination.getD "developer")
              stack ts).2
            (format_sns_message st "exception" c.msg (c.destination.getD "developer")
              stack ts).1
            (st.failure_topic.getD "") platformSystem c.createOk c.publishOk
            c.response loggingERROR c.msg

/-- C1 witness: on a concrete run with the topic configured and a successful
dispatch the call does not raise, and the ERROR sink write is among the
effects. -/
theorem C1_sink_write_vs_dispatch_failure_witness :
    Effect.sinkWrite loggingERROR "boom" ∈
      (exceptionCall
        ⟨"test", "subscribe.log", "test.subscribe.log", "DEBUG",
          some "arn:sns:failure", none⟩
        ⟨"boom", none, true, true, "resp"⟩ "Linux" ["f1", "f2", "f3"]
        "2021-04-21 00:00:00").effects :=
  (C1_sink_write_vs_dispatch_failure
      ⟨"test", "subscribe.log", "test.subscribe.log", "DEBUG",
        some "arn:sns:failure", none⟩
      ⟨"boom", none, true, true, "resp"⟩ "Linux" ["f1", "f2", "f3"]
      "2021-04-21 00:00:00").1 (by decide)

/-- Helper: with a truthy topic and a successful client construction, one
`exception` call performs exactly one publish attempt, carrying the topic
and the payload built by `format_sns_message` with level "exception" and the
destination (default "developer") as `snow_team`. -/
theorem exceptionCall_publishes (st : StructLogs) (c : CallSpec)
    (platformSystem : String) (stack : List String) (ts : String)
    (hT : pyTruthy st.failure_topic = true) (hC : c.createOk = true) :
    publishesOf (exceptionCall st c platformSystem stack ts).effects =
      [(st.failure_topic.getD "",
        (format_sns_message st "exception" c.msg (c.destination.getD "developer")
          stack ts).2,
        (format_sns_message st "exception" c.msg (c.destination.getD "developer")
          stack ts).1)] := by
  rcases hc : st.sns_client with _ | cl <;>
    by_cases hw : pyLower platformSystem = "windows" <;>
      cases hp : c.publishOk <;>
        simp [exceptionCall, hT, send_message_to_sns, set_sns_client, hc, hw, hC,
          hp, publishesOf]

/-- C4: `error` never triggers a publish attempt, even with the failure
topic configured, while `exception` with the topic configured (and a
transport client that constructs successfully) triggers exactly one publish
attempt per call — whether or not that attempt succeeds. -/
theorem C4_dispatch_on_exception_only (st : StructLogs) (msg2 : String)
    (c : CallSpec) (platformSystem : String) (stack : List String) (ts : String)
    (hT : pyTruthy st.failure_topic = true) (hC : c.createOk = true) :
    publishCount (errorCall st msg2).2 = 0 ∧
    publishCount (exceptionCall st c platformSystem stack ts).effects = 1 := by
  constructor
  · rfl
  · rw [publishCount, exceptionCall_publishes st c platformSystem stack ts hT hC]
    rfl

/-- C4 witness: concrete runs with the topic configured — `error` performs
zero publish attempts and `exception` performs exactly one. -/
theorem C4_dispatch_on_exception_only_witness :
    publishCount (errorCall
      ⟨"test", "subscribe.log", "test.subscribe.log", "DEBUG",
        some "arn:sns:failure", none⟩ "oops").2 = 0 ∧
    publishCount (exceptionCall
      ⟨"test", "subscribe.log", "test.subscribe.log", "DEBUG",
        some "arn:sns:failure", none⟩
      ⟨"boom", none, true, true, "resp"⟩ "Linux" ["f1", "f2", "f3"]
      "2021-04-21 00:00:00").effects = 1 :=
  C4_dispatch_on_exception_only
    ⟨"test", "subscribe.log", "test.subscribe.log", "DEBUG",
      some "arn:sns:failure", none⟩ "oops"
    ⟨"boom", none, true, true, "resp"⟩ "Linux" ["f1", "f2", "f3"]
    "2021-04-21 00:00:00" (by decide) rfl

/-- C6: the single publish attempt of an `exception` call carries
`snow_team` equal to "developer" when no destination keyword was supplied,
and equal to the supplied value otherwise — in the message body and in the
attribute map alike. -/
theorem C6_destination_default (st : StructLogs) (c : CallSpec)
    (platformSystem : String) (stack : List String) (ts : String)
    (hT : pyTruthy st.failure_topic = true) (hC : c.createOk = true) :
    ∃ t body attr,
      publishesOf (exceptionCall st c platformSystem stack ts).effects =
        [(t, body, attr)] ∧
      body.lookup "snow_team" =
        some (match c.destination with
          | none => "developer"
          | some d => d) ∧
      attr.lookup "snow_team" =
        some ⟨"string", match c.destination with
          | none => "developer"
          | some d => d⟩ := by
  refine ⟨_, _, _, exceptionCall_publishes st c platformSystem stack ts hT hC,
    ?_, ?_⟩ <;> cases hd : c.destination <;> rfl

/-- C6 witness: with no destination keyword the concrete payload carries
snow_team "developer" in body and attributes. -/
theorem C6_destination_default_witness :
    ∃ t body attr,
      publishesOf (exceptionCall
        ⟨"test", "subscribe.log", "test.subscribe.log", "DEBUG",
          some "arn:sns:failure", none⟩
        ⟨"boom", none, true, true, "resp"⟩ "Linux" ["f1", "f2", "f3"]
        "2021-04-21 00:00:00").effects = [(t, body, attr)] ∧
      body.lookup "snow_team" =
        some (match (none : Option String) with
          | none => "developer"
          | some d => d) ∧
      attr.lookup "snow_team" =
        some ⟨"string", match (none : Option String) with
          | none => "developer"
          | some d => d⟩ :=
  C6_destination_default
    ⟨"test", "subscribe.log", "test.subscribe.log", "DEBUG",
      some "arn:sns:failure", none⟩
    ⟨"boom", none, true, true, "resp"⟩ "Linux" ["f1", "f2", "f3"]
    "2021-04-21 00:00:00" (by decide) rfl

/-- C9: every dispatched alert's message body has exactly the keys team,
module, traceback, utc_time_stamp, message_type, message, snow_team in
order; message_type is "exception"; traceback is the formatted call stack
minus its two innermost frames; and the attribute map has the same keys,
each value wrapped as DataType "string" with StringValue equal to the
body's value for that key. -/
theorem C9_alert_payload_shape (st : StructLogs) (c : CallSpec)
    (platformSystem : String) (stack : List String) (ts : String)
    (hT : pyTruthy st.failure_topic = true) (hC : c.createOk = true) :
    ∃ t body attr,
      publishesOf (exceptionCall st c platformSystem stack ts).effects =
        [(t, body, attr)] ∧
      body.map Prod.fst =
        ["team", "module", "traceback", "utc_time_stamp", "message_type",
         "message", "snow_team"] ∧
      attr.map Prod.fst = body.map Prod.fst ∧
      body.lookup "message_type" = some "exception" ∧
      body.lookup "traceback" = some (String.join (stack.dropLast.dropLast)) ∧
      ∀ k : String, attr.lookup k =
        (body.lookup k).map (fun v => AttrVal.mk "string" v) := by
  refine ⟨_, _, _, exceptionCall_publishes st c platformSystem stack ts hT hC,
    rfl, rfl, rfl, rfl, ?_⟩
  intro k
  by_cases h1 : k = "team"
  · subst h1; rfl
  by_cases h2 : k = "module"
  · subst h2; rfl
  by_cases h3 : k = "traceback"
  · subst h3; rfl
  by_cases h4 : k = "utc_time_stamp"
  · subst h4; rfl
  by_cases h5 : k = "message_type"
  · subst h5; rfl
  by_cases h6 : k = "message"
  · subst h6; rfl
  by_cases h7 : k = "snow_team"
  · subst h7; rfl
  simp [format_sns_message, List.lookup, beq_eq_false_iff_ne.mpr h1,
    beq_eq_false_iff_ne.mpr h2, beq_eq_false_iff_ne.mpr h3,
    beq_eq_false_iff_ne.mpr h4, beq_eq_false_iff_ne.mpr h5,
    beq_eq_false_iff_ne.mpr h6, beq_eq_false_iff_ne.mpr h7]

/-- C9 witness: the payload-shape theorem applied to a concrete dispatched
alert. -/
theorem C9_alert_payload_shape_witness :
    ∃ t body attr,
      publishesOf (exceptionCall
        ⟨"test", "subscribe.log", "test.subscribe.log", "DEBUG",
          some "arn:sns:failure", none⟩
        ⟨"boom", none, true, true, "resp"⟩ "Linux" ["f1", "f2", "f3"]
        "2021-04-21 00:00:00").effects = [(t, body, attr)] ∧
      body.map Prod.fst =
        ["team", "module", "traceback", "utc_time_stamp", "message_type",
         "message", "snow_team"] ∧
      attr.map Prod.fst = body.map Prod.fst ∧
      body.lookup "message_type" = some "exception" ∧
      body.lookup "traceback" =
        some (String.join ((["f1", "f2", "f3"] : List String).dropLast.dropLast)) ∧
      ∀ k : String, attr.lookup k =
        (body.lookup k).map (fun v => AttrVal.mk "string" v) :=
  C9_alert_payload_shape
    ⟨"test", "subscribe.log", "test.subscribe.log", "DEBUG",
      some "arn:sns:failure", none⟩
    ⟨"boom", none, true, true, "resp"⟩ "Linux" ["f1", "f2", "f3"]
    "2021-04-21 00:00:00" (by decide) rfl

/-- Helper: `createCount` is additive over concatenation of effect lists. -/
theorem createCount_append (a b : List Effect) :
    createCount (a ++ b) = createCount a + createCount b := by
  simp [createCount, List.filter_append]

/-- Helper: one `exception` call constructs a client only when none is
cached, and after the call the cached-client bit cannot have increased:
the number of constructions plus the post-call bit is bounded by the
pre-call bit. -/
theorem createCount_step (st : StructLogs) (c : CallSpec)
    (platformSystem : String) (stack : List String) (ts : String) :
    createCount (exceptionCall st c platformSystem stack ts).effects +
      clientBit (exceptionCall st c platformSystem stack ts).state ≤
        clientBit st := by
  cases hT : pyTruthy st.failure_topic with
  | false => simp [exceptionCall, hT, createCount, isCreate, clientBit]
  | true =>
    rcases hc : st.sns_client with _ | cl <;>
      by_cases hw : pyLower platformSystem = "windows" <;>
        cases hcr : c.createOk <;> cases hp : c.publishOk <;>
          simp [exceptionCall, hT, send_message_to_sns, set_sns_client, hc, hw,
            hcr, hp, createCount, isCreate, clientBit]

/-- Helper: over any sequence of `exception` calls on one facade, the number
of client constructions plus the final cached-client bit is bounded by the
initial bit. -/
theorem createCount_runCalls (st : StructLogs) (calls : List CallSpec)
    (platformSystem : String) (stack : List String) (ts : String) :
    createCount (runCalls st calls platformSystem stack ts).2 +
      clientBit (runCalls st calls platformSystem stack ts).1 ≤
        clientBit st := by
  induction calls generalizing st with
  | nil => simp [runCalls, createCount]
  | cons c rest ih =>
    have h1 := createCount_step st c platformSystem stack ts
    have h2 := ih (exceptionCall st c platformSystem stack ts).state
    simp only [runCalls, createCount_append]
    omega

/-- Helper: once a client is cached, an `exception` call keeps exactly that
client and constructs no new one. -/
theorem exceptionCall_client_cached (st : StructLogs) (c : CallSpec)
    (platformSystem : String) (stack : List String) (ts : String)
    (cl : SnsClient) (h : st.sns_client = some cl) :
    (exceptionCall st c platformSystem stack ts).state.sns_client = some cl ∧
    createCount (exceptionCall st c platformSystem stack ts).effects = 0 := by
  cases hT : pyTruthy st.failure_topic <;>
    cases hp : c.publishOk <;>
      simp [exceptionCall, send_message_to_sns, hT, h, hp, createCount, isCreate]

/-- C8: per facade instance the transport client is created lazily at most
once — across any sequence of exception calls starting with no cached
client, at most one client construction happens; once a client is cached,
every later call reuses exactly it and constructs none; and at construction
time, on Windows the client is built with certificate verification disabled
after printing the diagnostic note "Windows", while on every other platform
it is built with default verified settings and no note. -/
theorem C8_lazy_transport_client :
    (∀ (st : StructLogs) (calls : List CallSpec) (platformSystem : String)
        (stack : List String) (ts : String),
        st.sns_client = none →
        createCount (runCalls st calls platformSystem stack ts).2 ≤ 1) ∧
    (∀ (st : StructLogs) (c : CallSpec) (platformSystem : String)
        (stack : List String) (ts : String) (cl : SnsClient),
        st.sns_client = some cl →
        (exceptionCall st c platformSystem stack ts).state.sns_client =
          some cl ∧
        createCount (exceptionCall st c platformSystem stack ts).effects = 0) ∧
    (∀ (st : StructLogs) (platformSystem : String),
        pyLower platformSystem = "windows" →
        (set_sns_client st platformSystem true).1.sns_client = some ⟨false⟩ ∧
        (set_sns_client st platformSystem true).2.1 =
          [Effect.printed "Windows", Effect.createClient false]) ∧
    (∀ (st : StructLogs) (platformSystem : String),
        ¬pyLower platformSystem = "windows" →
        (set_sns_client st platformSystem true).1.sns_client = some ⟨true⟩ ∧
        (set_sns_client st platformSystem true).2.1 =
          [Effect.createClient true]) := by
  refine ⟨?_, ?_, ?_, ?_⟩
  · intro st calls platformSystem stack ts h
    have hb := createCount_runCalls st calls platformSystem stack ts
    have : clientBit st = 1 := by simp [clientBit, h]
    omega
  · intro st c platformSystem stack ts cl h
    exact exceptionCall_client_cached st c platformSystem stack ts cl h
  · intro st platformSystem hw
    constructor <;> simp [set_sns_client, hw]
  · intro st platformSystem hw
    constructor <;> simp [set_sns_client, hw]

/-- C8 witness: a concrete two-call sequence on a fresh facade constructs
the client at most once, and the concrete Windows / Linux constructions get
the claimed verification settings. -/
theorem C8_lazy_transport_client_witness :
    createCount (runCalls
      ⟨"test", "subscribe.log", "test.subscribe.log", "DEBUG",
        some "arn:sns:failure", none⟩
      [⟨"a", none, true, true, "r1"⟩, ⟨"b", none, true, true, "r2"⟩]
      "Linux" ["f1", "f2", "f3"] "2021-04-21 00:00:00").2 ≤ 1 ∧
    (set_sns_client
      ⟨"test", "subscribe.log", "test.subscribe.log", "DEBUG",
        some "arn:sns:failure", none⟩ "Windows" true).1.sns_client =
      some ⟨false⟩ ∧
    (set_sns_client
      ⟨"test", "subscribe.log", "test.subscribe.log", "DEBUG",
        some "arn:sns:failure", none⟩ "Linux" true).1.sns_client =
      some ⟨true⟩ :=
  ⟨C8_lazy_transport_client.1
      ⟨"test", "subscribe.log", "test.subscribe.log", "DEBUG",
        some "arn:sns:failure", none⟩
      [⟨"a", none, true, true, "r1"⟩, ⟨"b", none, true, true, "r2"⟩]
      "Linux" ["f1", "f2", "f3"] "2021-04-21 00:00:00" rfl,
   (C8_lazy_transport_client.2.2.1
      ⟨"test", "subscribe.log", "test.subscribe.log", "DEBUG",
        some "arn:sns:failure", none⟩ "Windows" (by decide)).1,
   (C8_lazy_transport_client.2.2.2
      ⟨"test", "subscribe.log", "test.subscribe.log", "DEBUG",
        some "arn:sns:failure", none⟩ "Linux" (by decide)).1⟩

end EcurLogging
